import Mathlib

/-!
Verification of the drift analysis and reporting engine of the
iacdrift repository, against its natural-language specification.

The Python sources work on loosely typed dictionaries.  We embed every
resource descriptor as a structure whose fields are all optional: an
`Option` field models presence or absence of the corresponding key, and
the accessor defaults below mirror the `.get(key, default)` calls of the
source.  Timestamps are kept as `String`, matching the TEXT columns and
ISO-8601 strings of the source, whose lexicographic order is the order
the SQL comparisons use.
-/

/-- Python `s.split(sep)[0]` for a one-character separator: the prefix of
`s` before the first occurrence of the character. -/
def splitHead (sep : Char) (s : String) : String :=
  String.mk (s.toList.takeWhile (fun c => c ≠ sep))

/-- Python `needle in hay` on strings: substring test. -/
def pyInStr (needle hay : String) : Bool :=
  decide (needle.toList <:+: hay.toList)

/-- Truthiness of an optional string, as Python applies it to the result
of `.get(key)`: `None` and the empty string are falsy. -/
def pyTruthyOptStr (o : Option String) : Bool :=
  o.getD "" ≠ ""

/-- The characters of `l` before the first occurrence of the pattern
`pat` as a sublist; the whole list when `pat` does not occur. -/
def takeUntilPat (pat : List Char) : List Char → List Char
  | [] => []
  | c :: rest => if pat.isPrefixOf (c :: rest) then [] else c :: takeUntilPat pat rest

/-- Python `s.split(pat)[0]` for a string pattern. -/
def splitPatHead (pat : String) (s : String) : String :=
  String.mk (takeUntilPat pat.toList s.toList)

/-- Python dictionary lookup `d[k]` / `k in d` on an association list:
first binding wins. -/
def keyLookup (k : String) : List (String × α) → Option α
  | [] => none
  | (k2, v) :: rest => if k2 = k then some v else keyLookup k rest

/-- Python dictionary assignment `d[k] = v` on an association list:
replaces the first binding of `k` in place, else appends. -/
def dictInsert (k : String) (v : α) : List (String × α) → List (String × α)
  | [] => [(k, v)]
  | (k2, v2) :: rest => if k2 = k then (k, v) :: rest else (k2, v2) :: dictInsert k v rest

/-- One port mapping dictionary.  Only the count of mappings is ever
compared by the analyzer. -/
structure PortMapping where
  internal : Option Int := none
  external : Option Int := none
  protocol : Option String := none
  ip : Option String := none
deriving DecidableEq

/-- The `RestartPolicy` sub-dictionary of a docker inspect result; the
analyzer reads `.get("Name", "")` from it. -/
structure RestartPolicy where
  Name : Option String := none
deriving DecidableEq

/-- A container descriptor dictionary.  The expected side (built by
`extract_expected_infrastructure`) populates `name`, `image`, `ports`,
`env`, `networks`, `restart` and `status`; the actual side (built from
docker inspect output) populates `name`, `image`, `status`, `running`,
`ports`, `env`, `networks`, `restart_policy`, `created`, `started_at`
and `health_status`.  Absent keys are `none`. -/
structure ContainerDesc where
  name : Option String := none
  image : Option String := none
  ports : Option (List PortMapping) := none
  env : Option (List String) := none
  networks : Option (List (Option String)) := none
  restart : Option String := none
  status : Option String := none
  running : Option Bool := none
  restart_policy : Option RestartPolicy := none
  created : Option String := none
  started_at : Option String := none
  health_status : Option String := none
deriving DecidableEq

/-- A network descriptor dictionary. -/
structure NetworkDesc where
  name : Option String := none
  driver : Option String := none
  subnet : Option String := none
  created : Option String := none
  containers : Option Nat := none
deriving DecidableEq

/-- A volume descriptor dictionary. -/
structure VolumeDesc where
  name : Option String := none
  driver : Option String := none
  mountpoint : Option String := none
  created : Option String := none
deriving DecidableEq

/-- An image descriptor dictionary, as built by
`extract_expected_infrastructure`. -/
structure ImageDesc where
  name : Option String := none
  repo_digest : Option String := none
  image_id : Option String := none
deriving DecidableEq

/-- A value stored in the `expected` / `actual` slots of a finding.  The
source stores Python values of these shapes there. -/
inductive FieldVal where
  | null
  | str (s : String)
  | int (n : Nat)
  | container (c : ContainerDesc)
  | network (c : NetworkDesc)
  | volume (c : VolumeDesc)
deriving DecidableEq

/-- `.get("image")` with no default: `None` becomes `null`. -/
def optStrVal : Option String → FieldVal
  | some s => .str s
  | none => .null

/-- One drift finding, with the exact fields the source appends. -/
structure Finding where
  type : String
  severity : String
  resource : String
  message : String
  expected : FieldVal
  actual : FieldVal
deriving DecidableEq

/-- A snapshot of infrastructure partitioned by resource kind; each
partition is a name-keyed dictionary. -/
structure Infrastructure where
  containers : List (String × ContainerDesc) := []
  networks : List (String × NetworkDesc) := []
  volumes : List (String × VolumeDesc) := []
  images : List (String × ImageDesc) := []
deriving DecidableEq

def emptyInfrastructure : Infrastructure := {}

/-!
## Drift Analysis Engine

Embedding of `DriftDetector.analyze_container_drift`,
`analyze_network_drift`, `analyze_volume_drift` and `analyze_drift` from
src/scripts/drift-detection/drift-detector.py.  Each analyzer walks the
expected dictionary in order, appending findings, then walks the actual
dictionary for unexpected resources.  The source carries a boolean that
is set to True exactly when a finding is appended, so the returned flag
equals nonemptiness of the returned list; we return the pair in that
form.
-/

def missingContainerFinding (name : String) (cfg : ContainerDesc) : Finding :=
  { type := "missing_container", severity := "high", resource := name
    message := "Expected container " ++ name ++ " not found"
    expected := .container cfg, actual := .null }

def statusDriftFinding (name : String) (acfg : ContainerDesc) : Finding :=
  { type := "container_status_drift", severity := "high", resource := name
    message := "Container " ++ name ++ " is not running"
    expected := .str "running", actual := .str (acfg.status.getD "unknown") }

def imageDriftFinding (name : String) (cfg acfg : ContainerDesc) : Finding :=
  { type := "image_drift", severity := "medium", resource := name
    message := "Container " ++ name ++ " has image drift"
    expected := optStrVal cfg.image, actual := optStrVal acfg.image }

def portCountDriftFinding (name : String) (cfg acfg : ContainerDesc) : Finding :=
  { type := "port_count_drift", severity := "medium", resource := name
    message := "Container " ++ name ++ " has port count mismatch"
    expected := .int (cfg.ports.getD []).length, actual := .int (acfg.ports.getD []).length }

def restartPolicyDriftFinding (name : String) (cfg acfg : ContainerDesc) : Finding :=
  { type := "restart_policy_drift", severity := "low", resource := name
    message := "Container " ++ name ++ " has restart policy drift"
    expected := .str (cfg.restart.getD "")
    actual := .str ((acfg.restart_policy.getD {}).Name.getD "") }

def healthDriftFinding (name : String) (acfg : ContainerDesc) : Finding :=
  { type := "health_drift", severity := "high", resource := name
    message := "Container " ++ name ++ " is unhealthy"
    expected := .str "healthy", actual := .str (acfg.health_status.getD "none") }

def unexpectedContainerFinding (name : String) (acfg : ContainerDesc) : Finding :=
  { type := "unexpected_container", severity := "medium", resource := name
    message := "Unexpected container " ++ name ++ " found"
    expected := .null, actual := .container acfg }

/-- The in-order checks run against one expected container that is
present in the actual dictionary: status, image, port count, restart
policy, health.  Gates mirror the source conditions exactly, including
Python truthiness of the default values. -/
def containerChecks (name : String) (cfg acfg : ContainerDesc) : List Finding :=
  (if cfg.status = some "running" ∧ acfg.running.getD false = false then
    [statusDriftFinding name acfg] else []) ++
  (let expectedImage := splitHead ':' (cfg.image.getD "")
   let actualImage := splitHead ':' (acfg.image.getD "")
   if expectedImage ≠ "" ∧ actualImage ≠ "" ∧ pyInStr expectedImage actualImage = false then
    [imageDriftFinding name cfg acfg] else []) ++
  (if (cfg.ports.getD []).length ≠ (acfg.ports.getD []).length then
    [portCountDriftFinding name cfg acfg] else []) ++
  (let expectedRestart := cfg.restart.getD ""
   let actualRestart := (acfg.restart_policy.getD {}).Name.getD ""
   if expectedRestart ≠ "" ∧ expectedRestart ≠ actualRestart then
    [restartPolicyDriftFinding name cfg acfg] else []) ++
  (let hs := acfg.health_status.getD "none"
   if (hs ≠ "healthy" ∧ hs ≠ "none") ∧ acfg.running.getD false = true then
    [healthDriftFinding name acfg] else [])

/-- The expected-driven pass over containers: a missing actual entry
short-circuits to a single missing_container finding. -/
def containerExpectedPass (actual : List (String × ContainerDesc)) :
    List (String × ContainerDesc) → List Finding
  | [] => []
  | (n, cfg) :: rest =>
    (match keyLookup n actual with
     | none => [missingContainerFinding n cfg]
     | some acfg => containerChecks n cfg acfg) ++ containerExpectedPass actual rest

/-- The reverse pass over actual containers not present in expected. -/
def containerUnexpectedPass (expected actual : List (String × ContainerDesc)) : List Finding :=
  (actual.filter (fun p => (keyLookup p.1 expected).isNone)).map
    (fun p => unexpectedContainerFinding p.1 p.2)

def analyze_container_drift (expected actual : List (String × ContainerDesc)) :
    Bool × List Finding :=
  let ds := containerExpectedPass actual expected ++ containerUnexpectedPass expected actual
  (!ds.isEmpty, ds)

def missingNetworkFinding (name : String) (cfg : NetworkDesc) : Finding :=
  { type := "missing_network", severity := "high", resource := name
    message := "Expected network " ++ name ++ " not found"
    expected := .network cfg, actual := .null }

def networkDriverDriftFinding (name ed ad : String) : Finding :=
  { type := "network_driver_drift", severity := "medium", resource := name
    message := "Network " ++ name ++ " has driver mismatch"
    expected := .str ed, actual := .str ad }

def networkSubnetDriftFinding (name es as2 : String) : Finding :=
  { type := "network_subnet_drift", severity := "medium", resource := name
    message := "Network " ++ name ++ " has subnet mismatch"
    expected := .str es, actual := .str as2 }

def unexpectedNetworkFinding (name : String) (acfg : NetworkDesc) : Finding :=
  { type := "unexpected_network", severity := "low", resource := name
    message := "Unexpected network " ++ name ++ " found"
    expected := .null, actual := .network acfg }

def networkChecks (name : String) (cfg acfg : NetworkDesc) : List Finding :=
  (let ed := cfg.driver.getD ""
   let ad := acfg.driver.getD ""
   if ed ≠ "" ∧ ed ≠ ad then [networkDriverDriftFinding name ed ad] else []) ++
  (let es := cfg.subnet.getD ""
   let as2 := acfg.subnet.getD ""
   if es ≠ "" ∧ es ≠ as2 then [networkSubnetDriftFinding name es as2] else [])

def networkExpectedPass (actual : List (String × NetworkDesc)) :
    List (String × NetworkDesc) → List Finding
  | [] => []
  | (n, cfg) :: rest =>
    (match keyLookup n actual with
     | none => [missingNetworkFinding n cfg]
     | some acfg => networkChecks n cfg acfg) ++ networkExpectedPass actual rest

def networkUnexpectedPass (expected actual : List (String × NetworkDesc)) : List Finding :=
  (actual.filter (fun p => (keyLookup p.1 expected).isNone)).map
    (fun p => unexpectedNetworkFinding p.1 p.2)

def analyze_network_drift (expected actual : List (String × NetworkDesc)) :
    Bool × List Finding :=
  let ds := networkExpectedPass actual expected ++ networkUnexpectedPass expected actual
  (!ds.isEmpty, ds)

def missingVolumeFinding (name : String) (cfg : VolumeDesc) : Finding :=
  { type := "missing_volume", severity := "medium", resource := name
    message := "Expected volume " ++ name ++ " not found"
    expected := .volume cfg, actual := .null }

def volumeDriverDriftFinding (name ed ad : String) : Finding :=
  { type := "volume_driver_drift", severity := "low", resource := name
    message := "Volume " ++ name ++ " has driver mismatch"
    expected := .str ed, actual := .str ad }

def unexpectedVolumeFinding (name : String) (acfg : VolumeDesc) : Finding :=
  { type := "unexpected_volume", severity := "low", resource := name
    message := "Unexpected volume " ++ name ++ " found"
    expected := .null, actual := .volume acfg }

def volumeChecks (name : String) (cfg acfg : VolumeDesc) : List Finding :=
  let ed := cfg.driver.getD ""
  let ad := acfg.driver.getD ""
  if ed ≠ "" ∧ ed ≠ ad then [volumeDriverDriftFinding name ed ad] else []

def volumeExpectedPass (actual : List (String × VolumeDesc)) :
    List (String × VolumeDesc) → List Finding
  | [] => []
  | (n, cfg) :: rest =>
    (match keyLookup n actual with
     | none => [missingVolumeFinding n cfg]
     | some acfg => volumeChecks n cfg acfg) ++ volumeExpectedPass actual rest

def volumeUnexpectedPass (expected actual : List (String × VolumeDesc)) : List Finding :=
  (actual.filter (fun p => (keyLookup p.1 expected).isNone)).map
    (fun p => unexpectedVolumeFinding p.1 p.2)

def analyze_volume_drift (expected actual : List (String × VolumeDesc)) :
    Bool × List Finding :=
  let ds := volumeExpectedPass actual expected ++ volumeUnexpectedPass expected actual
  (!ds.isEmpty, ds)

/-!
## Terraform state extraction

Embedding of `DriftDetector.extract_expected_infrastructure`.  The
terraform show JSON is modelled by the keys the source reads; every key
may be absent.
-/

structure IpamCfg where
  subnet : Option String := none
deriving DecidableEq

structure NetAdv where
  name : Option String := none
deriving DecidableEq

/-- The `values` dictionary of one terraform resource. -/
structure TfResourceValues where
  name : Option String := none
  image : Option String := none
  ports : Option (List PortMapping) := none
  env : Option (List String) := none
  networks_advanced : Option (List NetAdv) := none
  restart : Option String := none
  must_run : Option Bool := none
  driver : Option String := none
  ipam_config : Option (List IpamCfg) := none
  repo_digest : Option String := none
  image_id : Option String := none
deriving DecidableEq

structure TfResource where
  type : Option String := none
  name : Option String := none
  values : Option TfResourceValues := none
deriving DecidableEq

structure TfRootModule where
  resources : Option (List TfResource) := none
deriving DecidableEq

structure TfStateValues where
  root_module : Option TfRootModule := none
deriving DecidableEq

/-- The parsed output of `terraform show -json`, restricted to the keys
the source reads. -/
structure StateData where
  values : Option TfStateValues := none
deriving DecidableEq

/-- The image string of a docker_container resource:
`values.get("image", "").split("sha256:")[0]` when "sha256:" occurs in
it, else the string unchanged. -/
def stripImageDigest (img : String) : String :=
  if pyInStr "sha256:" img then splitPatHead "sha256:" img else img

/-- Processing of one terraform resource.  Every branch is gated on the
truthiness of `values.get("name")`: a resource whose values lack a
(non-empty) name is skipped. -/
def tfStep (inf : Infrastructure) (r : TfResource) : Infrastructure :=
  let values := r.values.getD {}
  match r.type with
  | some "docker_container" =>
    if pyTruthyOptStr values.name then
      let cname := values.name.getD ""
      let desc : ContainerDesc :=
        { name := some cname
          image := some (stripImageDigest (values.image.getD ""))
          ports := some (values.ports.getD [])
          env := some (values.env.getD [])
          networks := some ((values.networks_advanced.getD []).map (fun n => n.name))
          restart := some (values.restart.getD "")
          status := some (if values.must_run.getD false then "running" else "created") }
      { inf with containers := dictInsert cname desc inf.containers }
    else inf
  | some "docker_network" =>
    if pyTruthyOptStr values.name then
      let nname := values.name.getD ""
      let desc : NetworkDesc :=
        { name := some nname
          driver := some (values.driver.getD "")
          subnet := some (match values.ipam_config.getD [] with
            | [] => ""
            | c :: _ => c.subnet.getD "") }
      { inf with networks := dictInsert nname desc inf.networks }
    else inf
  | some "docker_volume" =>
    if pyTruthyOptStr values.name then
      let vname := values.name.getD ""
      let desc : VolumeDesc := { name := some vname, driver := some (values.driver.getD "") }
      { inf with volumes := dictInsert vname desc inf.volumes }
    else inf
  | some "docker_image" =>
    if pyTruthyOptStr values.name then
      let iname := values.name.getD ""
      let desc : ImageDesc :=
        { name := some iname
          repo_digest := some (values.repo_digest.getD "")
          image_id := some (values.image_id.getD "") }
      { inf with images := dictInsert iname desc inf.images }
    else inf
  | _ => inf

/-- `DriftDetector.extract_expected_infrastructure`: returns the empty
snapshot when the state is falsy or lacks the "values" key, else folds
over `values.root_module.resources`. -/
def extract_expected_infrastructure (state_data : Option StateData) : Infrastructure :=
  match state_data with
  | none => emptyInfrastructure
  | some sd =>
    match sd.values with
    | none => emptyInfrastructure
    | some v => (((v.root_module.getD {}).resources.getD []).foldl tfStep emptyInfrastructure)

/-- The dictionary returned by `get_terraform_state`: the raw parsed
state plus the extracted expected infrastructure. -/
structure TerraformState where
  raw_state : StateData := {}
  expected_infrastructure : Infrastructure := {}
deriving DecidableEq

/-- The dictionary returned by `get_docker_state`. -/
structure DockerState where
  actual_infrastructure : Infrastructure := {}
  timestamp : String := ""
  environment : String := ""
deriving DecidableEq

/-- `DriftDetector.analyze_drift`.  A falsy (absent) terraform or docker
state short-circuits to no drift and no findings; otherwise the three
per-kind analyzers run and their findings concatenate in order
containers, networks, volumes.  (The source extends the detail list only
when the per-kind flag is set, but the flag is set exactly when the
per-kind list is non-empty, so the concatenation is unconditional.) -/
def analyze_drift (terraform_state : Option TerraformState)
    (docker_state : Option DockerState) : Bool × List Finding :=
  match terraform_state, docker_state with
  | some ts, some ds =>
    let ei := ts.expected_infrastructure
    let ai := ds.actual_infrastructure
    let rc := analyze_container_drift ei.containers ai.containers
    let rn := analyze_network_drift ei.networks ai.networks
    let rv := analyze_volume_drift ei.volumes ai.volumes
    (rc.1 || rn.1 || rv.1, rc.2 ++ rn.2 ++ rv.2)
  | _, _ => (false, [])

/-!
## Report Builder

Embedding of `DriftDetector.generate_drift_report`.  The two timestamps
taken from `datetime.utcnow()` and the configured environment are passed
as parameters.
-/

structure Summary where
  total_issues : Nat
  high_severity : Nat
  medium_severity : Nat
  low_severity : Nat
deriving DecidableEq

structure ExpectedCounts where
  containers : Nat
  networks : Nat
  volumes : Nat
  images : Nat
deriving DecidableEq

structure ActualCounts where
  containers : Nat
  containers_running : Nat
  networks : Nat
  volumes : Nat
deriving DecidableEq

structure InfraState where
  expected : ExpectedCounts
  actual : ActualCounts
deriving DecidableEq

structure RawData where
  terraform_state_available : Bool
  docker_state_available : Bool
  last_check : String
deriving DecidableEq

structure Report where
  timestamp : String
  environment : String
  drift_detected : Bool
  summary : Summary
  drift_details : List Finding
  infrastructure_state : InfraState
  raw_data : RawData
deriving DecidableEq

def generate_drift_report (drift_detected : Bool) (drift_details : List Finding)
    (terraform_state : Option TerraformState) (docker_state : Option DockerState)
    (environment : String) (now : String) : Report :=
  let expected_infra := (terraform_state.map (fun t => t.expected_infrastructure)).getD {}
  let actual_infra := (docker_state.map (fun d => d.actual_infrastructure)).getD {}
  { timestamp := now
    environment := environment
    drift_detected := drift_detected
    summary :=
      { total_issues := drift_details.length
        high_severity := (drift_details.filter (fun d => d.severity = "high")).length
        medium_severity := (drift_details.filter (fun d => d.severity = "medium")).length
        low_severity := (drift_details.filter (fun d => d.severity = "low")).length }
    drift_details := drift_details
    infrastructure_state :=
      { expected :=
          { containers := expected_infra.containers.length
            networks := expected_infra.networks.length
            volumes := expected_infra.volumes.length
            images := expected_infra.images.length }
        actual :=
          { containers := actual_infra.containers.length
            containers_running :=
              (actual_infra.containers.filter (fun p => p.2.running.getD false)).length
            networks := actual_infra.networks.length
            volumes := actual_infra.volumes.length } }
    raw_data :=
      { terraform_state_available := terraform_state.isSome
        docker_state_available := docker_state.isSome
        last_check := now } }

/-!
## Report Store

Embedding of `DriftDatabase` from src/database/drift_database.py.  The
three SQLite tables become three lists of rows; AUTOINCREMENT primary
keys become explicit next-id counters starting at 1 and never reused.
Row order in each list is insertion order, which for reachable states is
ascending id order — the order in which an index on a non-id column
enumerates rows of equal key.  The `datetime.now()` values and the
cutoff strings `(now - timedelta(days)).isoformat()` are passed as
parameters; SQL TEXT comparison of ISO-8601 timestamps is String order.
-/

/-- SQLite TEXT comparison, strict: lexicographic on the code points of
the stored strings (memcmp order on the ASCII ISO-8601 timestamps the
system stores). -/
def txtLtL : List Char → List Char → Bool
  | [], [] => false
  | [], _ :: _ => true
  | _ :: _, [] => false
  | a :: as, b :: bs =>
    if a < b then true
    else if b < a then false
    else txtLtL as bs

def txtLt (a b : String) : Bool := txtLtL a.toList b.toList

/-- SQLite TEXT comparison, non-strict. -/
def txtLe (a b : String) : Bool := !(txtLt b a)

structure ReportRow where
  id : Nat
  timestamp : String
  environment : String
  drift_detected : Bool
  total_issues : Nat
  high_severity : Nat
  medium_severity : Nat
  low_severity : Nat
  report_data : Report
  created_at : String
deriving DecidableEq

/-- A drift_details row.  The source stores `str(value)` in the two
value columns; we keep the value itself, since no behaviour below ever
reads the rendering. -/
structure DetailRow where
  id : Nat
  report_id : Nat
  drift_type : String
  severity : String
  resource : String
  message : String
  expected_value : FieldVal
  actual_value : FieldVal
deriving DecidableEq

structure InfraRow where
  id : Nat
  report_id : Nat
  resource_type : String
  resource_name : String
  expected_state : String
  actual_state : String
  state_timestamp : String
deriving DecidableEq

structure DB where
  reports : List ReportRow
  details : List DetailRow
  infra : List InfraRow
  next_report_id : Nat
  next_detail_id : Nat
  next_infra_id : Nat
deriving DecidableEq

def emptyDB : DB :=
  { reports := [], details := [], infra := [],
    next_report_id := 1, next_detail_id := 1, next_infra_id := 1 }

/-- The drift_details rows inserted for the findings of one report, with
consecutive AUTOINCREMENT ids. -/
def detailRows (start rid : Nat) : List Finding → List DetailRow
  | [] => []
  | d :: rest =>
    { id := start, report_id := rid, drift_type := d.type, severity := d.severity
      resource := d.resource, message := d.message
      expected_value := d.expected, actual_value := d.actual } ::
    detailRows (start + 1) rid rest

/-- The eight infrastructure_state rows inserted for one report: the
four expected-count entries in dictionary order, then the four
actual-count entries. -/
def infraRows (start rid : Nat) (st : InfraState) (ts : String) : List InfraRow :=
  [ { id := start, report_id := rid, resource_type := "expected_containers"
      resource_name := "containers", expected_state := toString st.expected.containers
      actual_state := "", state_timestamp := ts }
  , { id := start + 1, report_id := rid, resource_type := "expected_networks"
      resource_name := "networks", expected_state := toString st.expected.networks
      actual_state := "", state_timestamp := ts }
  , { id := start + 2, report_id := rid, resource_type := "expected_volumes"
      resource_name := "volumes", expected_state := toString st.expected.volumes
      actual_state := "", state_timestamp := ts }
  , { id := start + 3, report_id := rid, resource_type := "expected_images"
      resource_name := "images", expected_state := toString st.expected.images
      actual_state := "", state_timestamp := ts }
  , { id := start + 4, report_id := rid, resource_type := "actual_containers"
      resource_name := "containers", expected_state := ""
      actual_state := toString st.actual.containers, state_timestamp := ts }
  , { id := start + 5, report_id := rid, resource_type := "actual_containers_running"
      resource_name := "containers_running", expected_state := ""
      actual_state := toString st.actual.containers_running, state_timestamp := ts }
  , { id := start + 6, report_id := rid, resource_type := "actual_networks"
      resource_name := "networks", expected_state := ""
      actual_state := toString st.actual.networks, state_timestamp := ts }
  , { id := start + 7, report_id := rid, resource_type := "actual_volumes"
      resource_name := "volumes", expected_state := ""
      actual_state := toString st.actual.volumes, state_timestamp := ts } ]

/-- `DriftDatabase.store_report`: inserts the report row, one
drift_details row per finding and the eight infrastructure_state rows in
one transaction, and returns the fresh report id. -/
def store_report (db : DB) (report : Report) (now : String) : Nat × DB :=
  let rid := db.next_report_id
  let row : ReportRow :=
    { id := rid, timestamp := report.timestamp, environment := report.environment
      drift_detected := report.drift_detected
      total_issues := report.summary.total_issues
      high_severity := report.summary.high_severity
      medium_severity := report.summary.medium_severity
      low_severity := report.summary.low_severity
      report_data := report, created_at := now }
  (rid,
    { reports := db.reports ++ [row]
      details := db.details ++ detailRows db.next_detail_id rid report.drift_details
      infra := db.infra ++ infraRows db.next_infra_id rid report.infrastructure_state report.timestamp
      next_report_id := rid + 1
      next_detail_id := db.next_detail_id + report.drift_details.length
      next_infra_id := db.next_infra_id + 8 })

/-- Truthiness of the optional environment argument: `None` and the
empty string mean no filter, as in `if environment:`. -/
def envTruthy (environment : Option String) : Bool :=
  environment.getD "" ≠ ""

def matchesEnv (environment : Option String) (r : ReportRow) : Bool :=
  if envTruthy environment then decide (r.environment = environment.getD "") else true

/-- The first row of a reverse scan of the timestamp index: its keys are
(timestamp, rowid) pairs, so the scan yields the row of maximal
timestamp and, among equal timestamps, maximal id. -/
def pickLatestIndexScan : List ReportRow → Option ReportRow
  | [] => none
  | r :: rest =>
    match pickLatestIndexScan rest with
    | none => some r
    | some b =>
      if txtLt r.timestamp b.timestamp ∨ (r.timestamp = b.timestamp ∧ r.id < b.id) then some b
      else some r

/-- The first row of an ORDER BY timestamp DESC carried out by a sort of
the filtered rows: the row of maximal timestamp that is scanned first,
i.e. among equal timestamps the earliest row in scan order wins. -/
def pickLatestSorted : List ReportRow → Option ReportRow
  | [] => none
  | r :: rest =>
    match pickLatestSorted rest with
    | none => some r
    | some b => if txtLt r.timestamp b.timestamp = true then some b else some r

/-- `DriftDatabase.get_latest_report`: `SELECT * ... ORDER BY timestamp
DESC LIMIT 1`, optionally filtered by environment, returning the parsed
report body plus the row id.  The query has no id tie-breaker; SQLite
serves the unfiltered form by a reverse scan of idx_reports_timestamp
(highest id among equal timestamps) and the environment-filtered form
through idx_reports_environment plus a sort, which returns the
first-scanned (lowest-id) row among equal timestamps.  Both behaviours
were confirmed against SQLite itself. -/
def get_latest_report (db : DB) (environment : Option String) : Option (Nat × Report) :=
  let rows := db.reports.filter (matchesEnv environment)
  let picked := if envTruthy environment then pickLatestSorted rows else pickLatestIndexScan rows
  picked.map (fun row => (row.id, row.report_data))

/-- `DriftDatabase.cleanup_old_reports`: collects the ids of reports
with timestamp strictly below the cutoff; with no match it returns 0
without touching the store, else it deletes the matching reports and
their drift_details and infrastructure_state rows and returns the
number of report ids collected. -/
def cleanup_old_reports (db : DB) (cutoff : String) : Nat × DB :=
  let delIds := (db.reports.filter (fun r => txtLt r.timestamp cutoff)).map (fun r => r.id)
  if delIds.isEmpty then (0, db)
  else
    (delIds.length,
      { db with
        details := db.details.filter (fun d => !(delIds.contains d.report_id))
        infra := db.infra.filter (fun s => !(delIds.contains s.report_id))
        reports := db.reports.filter (fun r => !(delIds.contains r.id)) })

/-!
## Statistics

Embedding of `DriftDatabase.get_drift_statistics`.  SQL aggregates over
zero rows: COUNT(*) is 0 but SUM, AVG and MAX are NULL, which the
sqlite3 driver hands to Python as `None`.  The summary dictionary guards
most fields with `or 0`, but computes

  drift_percentage = (row["drift_reports"] / max(row["total_reports"], 1)) * 100

on the raw value, so with zero rows in the window the division is
`None / 1` and the call raises a TypeError.  We model the call as an
`Except`, and SQL real division exactly with rationals.
-/

/-- SQL SUM/AVG/MAX semantics: NULL on an empty row set. -/
def sqlAgg (rows : List ReportRow) (f : List ReportRow → α) : Option α :=
  if rows.isEmpty then none else some (f rows)

/-- SQLite `DATE(timestamp)` on the ISO-8601 strings the system stores:
the leading `YYYY-MM-DD` part. -/
def sqlDate (s : String) : String := String.mk (s.toList.take 10)

structure StatsSummary where
  total_reports : Nat
  drift_reports : Nat
  drift_percentage : ℚ
  avg_issues : ℚ
  max_issues : Nat
  total_high_severity : Nat
  total_medium_severity : Nat
  total_low_severity : Nat
deriving DecidableEq

structure TrendRow where
  report_date : String
  reports_count : Nat
  drift_count : Nat
  avg_issues : ℚ
deriving DecidableEq

structure Stats where
  summary : StatsSummary
  trend : List TrendRow
  period : String
  start_date : String
  end_date : String
deriving DecidableEq

/-- The GROUP BY DATE(timestamp) trend query, ordered by date
ascending. -/
def trendRows (rows : List ReportRow) : List TrendRow :=
  let dates := ((rows.map (fun r => sqlDate r.timestamp)).dedup).insertionSort
    (fun a b => txtLe a b = true)
  dates.map (fun dt =>
    let grp := rows.filter (fun r => decide (sqlDate r.timestamp = dt))
    { report_date := dt
      reports_count := grp.length
      drift_count := grp.countP (fun r => r.drift_detected)
      avg_issues := ((grp.map (fun r => (r.total_issues : ℚ))).sum) / (grp.length : ℚ) })

def get_drift_statistics (db : DB) (environment : Option String)
    (start_date : String) (days : Nat) (now : String) : Except String Stats :=
  let rows := db.reports.filter
    (fun r => txtLe start_date r.timestamp && matchesEnv environment r)
  let total := rows.length
  let driftSum := sqlAgg rows (fun l => l.countP (fun r => r.drift_detected))
  let avgIssues := sqlAgg rows (fun l => ((l.map (fun r => (r.total_issues : ℚ))).sum) / (l.length : ℚ))
  let maxIssues := sqlAgg rows (fun l => (l.map (fun r => r.total_issues)).foldr max 0)
  let sumHigh := sqlAgg rows (fun l => (l.map (fun r => r.high_severity)).sum)
  let sumMedium := sqlAgg rows (fun l => (l.map (fun r => r.medium_severity)).sum)
  let sumLow := sqlAgg rows (fun l => (l.map (fun r => r.low_severity)).sum)
  match driftSum with
  | none => .error "TypeError: unsupported operand type(s) for /: NoneType and int"
  | some d =>
    .ok
      { summary :=
          { total_reports := total
            drift_reports := d
            drift_percentage := ((d : ℚ) / (max total 1 : ℚ)) * 100
            avg_issues := (avgIssues.getD 0)
            max_issues := (maxIssues.getD 0)
            total_high_severity := (sumHigh.getD 0)
            total_medium_severity := (sumMedium.getD 0)
            total_low_severity := (sumLow.getD 0) }
        trend := trendRows rows
        period := toString days ++ " days"
        start_date := start_date
        end_date := now }

/-!
## Operation sequences

For the orphaned-children invariant the store is driven by arbitrary
sequences of its two mutating operations.
-/

inductive StoreOp where
  | store (report : Report) (now : String)
  | cleanup (cutoff : String)

def applyOp (db : DB) : StoreOp → DB
  | .store report now => (store_report db report now).2
  | .cleanup cutoff => (cleanup_old_reports db cutoff).2

/-- No drift_details row and no infrastructure_state row references a
report id absent from drift_reports. -/
def childrenLinked (db : DB) : Prop :=
  (∀ d ∈ db.details, ∃ r ∈ db.reports, r.id = d.report_id) ∧
  (∀ s ∈ db.infra, ∃ r ∈ db.reports, r.id = s.report_id)

/-!
## Helper lemmas
-/

theorem keyLookup_isSome_of_mem (l : List (String × α)) (p : String × α) (hp : p ∈ l) :
    (keyLookup p.1 l).isSome := by
  induction l with
  | nil => cases hp
  | cons hd tl ih =>
    obtain ⟨k, v⟩ := hd
    rcases List.mem_cons.mp hp with h | h
    · subst h
      simp [keyLookup]
    · by_cases hk : k = p.1
      · simp [keyLookup, hk]
      · simpa [keyLookup, hk] using ih h

theorem keyLookup_of_mem_nodup (l : List (String × α)) (k : String) (v : α)
    (hm : (k, v) ∈ l) (hnd : (l.map Prod.fst).Nodup) : keyLookup k l = some v := by
  induction l with
  | nil => cases hm
  | cons hd tl ih =>
    obtain ⟨k2, v2⟩ := hd
    rw [List.map_cons, List.nodup_cons] at hnd
    rcases List.mem_cons.mp hm with h | h
    · obtain ⟨rfl, rfl⟩ := Prod.mk.injEq .. ▸ Prod.mk.inj h
      simp [keyLookup]
    · have hk : k2 ≠ k := by
        rintro rfl
        exact hnd.1 (List.mem_map.mpr ⟨(k2, v), h, rfl⟩)
      simpa [keyLookup, hk] using ih h hnd.2

theorem statusDriftFinding_resource (n : String) (a : ContainerDesc) :
    (statusDriftFinding n a).resource = n := rfl

theorem imageDriftFinding_resource (n : String) (c a : ContainerDesc) :
    (imageDriftFinding n c a).resource = n := rfl

theorem portCountDriftFinding_resource (n : String) (c a : ContainerDesc) :
    (portCountDriftFinding n c a).resource = n := rfl

theorem restartPolicyDriftFinding_resource (n : String) (c a : ContainerDesc) :
    (restartPolicyDriftFinding n c a).resource = n := rfl

theorem healthDriftFinding_resource (n : String) (a : ContainerDesc) :
    (healthDriftFinding n a).resource = n := rfl

theorem containerChecks_resource (n : String) (cfg acfg : ContainerDesc) (f : Finding)
    (hf : f ∈ containerChecks n cfg acfg) : f.resource = n := by
  simp only [containerChecks, List.mem_append] at hf
  rcases hf with ((((h | h) | h) | h) | h) <;>
    · split_ifs at h <;> simp_all <;> subst h <;> rfl

/-- The findings contributed by one expected container entry. -/
def containerEntryFindings (actual : List (String × ContainerDesc))
    (n : String) (cfg : ContainerDesc) : List Finding :=
  match keyLookup n actual with
  | none => [missingContainerFinding n cfg]
  | some acfg => containerChecks n cfg acfg

theorem containerEntryFindings_resource (actual : List (String × ContainerDesc))
    (n : String) (cfg : ContainerDesc) (f : Finding)
    (hf : f ∈ containerEntryFindings actual n cfg) : f.resource = n := by
  unfold containerEntryFindings at hf
  rcases h : keyLookup n actual with _ | acfg <;> rw [h] at hf
  · simp at hf
    subst hf
    rfl
  · exact containerChecks_resource n cfg acfg f hf

theorem containerExpectedPass_cons (actual : List (String × ContainerDesc))
    (n : String) (cfg : ContainerDesc) (rest : List (String × ContainerDesc)) :
    containerExpectedPass actual ((n, cfg) :: rest) =
      containerEntryFindings actual n cfg ++ containerExpectedPass actual rest := rfl

theorem containerExpectedPass_filter_of_not_mem (actual : List (String × ContainerDesc))
    (P : Finding → Bool) (name : String) (hP : ∀ f, P f = true → f.resource = name)
    (l : List (String × ContainerDesc)) (hname : name ∉ l.map Prod.fst) :
    (containerExpectedPass actual l).filter P = [] := by
  induction l with
  | nil => rfl
  | cons hd tl ih =>
    obtain ⟨n, cfg⟩ := hd
    rw [List.map_cons] at hname
    rw [containerExpectedPass_cons, List.filter_append]
    rw [ih (fun h => hname (List.mem_cons_of_mem _ h)), List.append_nil]
    refine List.filter_eq_nil_iff.mpr (fun f hf hPf => ?_)
    have := containerEntryFindings_resource actual n cfg f hf
    exact hname (by simp [← hP f hPf, this])

theorem containerExpectedPass_filter_focus (actual : List (String × ContainerDesc))
    (P : Finding → Bool) (name : String) (cfg : ContainerDesc)
    (hP : ∀ f, P f = true → f.resource = name)
    (l : List (String × ContainerDesc)) (hnd : (l.map Prod.fst).Nodup)
    (hm : (name, cfg) ∈ l) :
    (containerExpectedPass actual l).filter P =
      (containerEntryFindings actual name cfg).filter P := by
  induction l with
  | nil => cases hm
  | cons hd tl ih =>
    obtain ⟨n, c⟩ := hd
    rw [List.map_cons, List.nodup_cons] at hnd
    rw [containerExpectedPass_cons, List.filter_append]
    rcases List.mem_cons.mp hm with h | h
    · obtain ⟨rfl, rfl⟩ := Prod.mk.injEq .. ▸ Prod.mk.inj h
      rw [containerExpectedPass_filter_of_not_mem actual P name hP tl hnd.1,
        List.append_nil]
    · have hne : n ≠ name := by
        rintro rfl
        exact hnd.1 (List.mem_map.mpr ⟨(n, cfg), h, rfl⟩)
      have hhead : (containerEntryFindings actual n c).filter P = [] := by
        refine List.filter_eq_nil_iff.mpr (fun f hf hPf => ?_)
        exact hne ((containerEntryFindings_resource actual n c f hf).symm.trans (hP f hPf))
      rw [hhead, List.nil_append]
      exact ih hnd.2 h

theorem containerUnexpectedPass_mem (expected actual : List (String × ContainerDesc))
    (f : Finding) (hf : f ∈ containerUnexpectedPass expected actual) :
    f.type = "unexpected_container" ∧
      ∃ p ∈ actual, f.resource = p.1 ∧ keyLookup p.1 expected = none := by
  unfold containerUnexpectedPass at hf
  obtain ⟨p, hp, rfl⟩ := List.mem_map.mp hf
  obtain ⟨hpa, hpn⟩ := List.mem_filter.mp hp
  exact ⟨rfl, p, hpa, rfl, Option.isNone_iff_eq_none.mp (by simpa using hpn)⟩

theorem containerChecks_filter_image (n : String) (cfg acfg : ContainerDesc) :
    (containerChecks n cfg acfg).filter
        (fun f => decide (f.type = "image_drift") && decide (f.resource = n)) =
      (if splitHead ':' (cfg.image.getD "") ≠ "" ∧ splitHead ':' (acfg.image.getD "") ≠ "" ∧
          pyInStr (splitHead ':' (cfg.image.getD "")) (splitHead ':' (acfg.image.getD "")) = false
        then [imageDriftFinding n cfg acfg] else []) := by
  simp only [containerChecks, List.filter_append]
  split_ifs <;>
    simp_all [statusDriftFinding, imageDriftFinding, portCountDriftFinding,
      restartPolicyDriftFinding, healthDriftFinding, List.filter]

/-- C2: an expected container absent from the actual dictionary yields
exactly one finding for that resource, of type missing_container and
severity high; no status, image, port, restart or health check
contributes a finding for it. -/
theorem analyze_container_drift_missing_short_circuits
    (expected actual : List (String × ContainerDesc)) (name : String) (cfg : ContainerDesc)
    (hmem : (name, cfg) ∈ expected) (hnd : (expected.map Prod.fst).Nodup)
    (habs : keyLookup name actual = none) :
    ((analyze_container_drift expected actual).2).filter
        (fun f => decide (f.resource = name)) = [missingContainerFinding name cfg] ∧
    (missingContainerFinding name cfg).type = "missing_container" ∧
    (missingContainerFinding name cfg).severity = "high" := by
  refine ⟨?_, rfl, rfl⟩
  have hfind : (analyze_container_drift expected actual).2 =
      containerExpectedPass actual expected ++ containerUnexpectedPass expected actual := rfl
  have hP : ∀ f : Finding, decide (f.resource = name) = true → f.resource = name :=
    fun f h => of_decide_eq_true h
  rw [hfind, List.filter_append,
    containerExpectedPass_filter_focus actual _ name cfg hP expected hnd hmem]
  have hcup : (containerUnexpectedPass expected actual).filter
      (fun f => decide (f.resource = name)) = [] := by
    refine List.filter_eq_nil_iff.mpr (fun f hf hPf => ?_)
    obtain ⟨-, p, hpa, hres, -⟩ := containerUnexpectedPass_mem expected actual f hf
    have : (keyLookup p.1 actual).isSome := keyLookup_isSome_of_mem actual p hpa
    rw [hres.symm.trans (hP f hPf)] at this
    rw [habs] at this
    cases this
  rw [hcup, List.append_nil]
  unfold containerEntryFindings
  rw [habs]
  simp [missingContainerFinding]

/-- C2 witness: a concrete store with container db absent from actual. -/
theorem analyze_container_drift_missing_short_circuits_witness :
    ((analyze_container_drift
        [("web", ({ name := some "web" } : ContainerDesc)), ("db", { name := some "db" })]
        [("web", { name := some "web", running := some true })]).2).filter
      (fun f => decide (f.resource = "db")) =
      [missingContainerFinding "db" { name := some "db" }] ∧
    (missingContainerFinding "db" ({ name := some "db" } : ContainerDesc)).type =
      "missing_container" ∧
    (missingContainerFinding "db" ({ name := some "db" } : ContainerDesc)).severity = "high" :=
  analyze_container_drift_missing_short_circuits _ _ "db" { name := some "db" }
    (by simp) (by simp) rfl

/-- C8 as stated is false: the source additionally requires the actual
image repository to be non-empty.  Expected image "nginx" with an absent
actual image satisfies the stated condition (non-empty expected
repository, not a substring of the empty actual repository) yet the
analyzer emits no image_drift finding. -/
theorem image_drift_claim_counterexample :
    splitHead ':' "nginx" ≠ "" ∧
    pyInStr (splitHead ':' "nginx") (splitHead ':' "") = false ∧
    keyLookup "web" [("web", ({ name := some "web" } : ContainerDesc))] =
      some { name := some "web" } ∧
    ((analyze_container_drift [("web", ({ image := some "nginx" } : ContainerDesc))]
        [("web", { name := some "web" })]).2).filter
      (fun f => decide (f.type = "image_drift")) = [] :=
  ⟨by decide, rfl, rfl, rfl⟩

/-- C8 (amended): for an expected container present in actual, an
image_drift finding (severity medium) is emitted exactly when the
expected image repository (the image string truncated at the first
colon) is non-empty, the actual image repository is non-empty, and the
expected repository is not a substring of the actual one. -/
theorem analyze_container_drift_image_drift_iff
    (expected actual : List (String × ContainerDesc)) (name : String)
    (cfg acfg : ContainerDesc)
    (hmem : (name, cfg) ∈ expected) (hnd : (expected.map Prod.fst).Nodup)
    (hlook : keyLookup name actual = some acfg) :
    ((analyze_container_drift expected actual).2).filter
        (fun f => decide (f.type = "image_drift") && decide (f.resource = name)) =
      (if splitHead ':' (cfg.image.getD "") ≠ "" ∧ splitHead ':' (acfg.image.getD "") ≠ "" ∧
          pyInStr (splitHead ':' (cfg.image.getD "")) (splitHead ':' (acfg.image.getD "")) = false
        then [imageDriftFinding name cfg acfg] else []) ∧
    (imageDriftFinding name cfg acfg).severity = "medium" := by
  refine ⟨?_, rfl⟩
  have hfind : (analyze_container_drift expected actual).2 =
      containerExpectedPass actual expected ++ containerUnexpectedPass expected actual := rfl
  have hP : ∀ f : Finding,
      (decide (f.type = "image_drift") && decide (f.resource = name)) = true →
        f.resource = name := by
    intro f h
    exact of_decide_eq_true (Bool.and_eq_true .. ▸ h).2
  rw [hfind, List.filter_append,
    containerExpectedPass_filter_focus actual _ name cfg hP expected hnd hmem]
  have hcup : (containerUnexpectedPass expected actual).filter
      (fun f => decide (f.type = "image_drift") && decide (f.resource = name)) = [] := by
    refine List.filter_eq_nil_iff.mpr (fun f hf hPf => ?_)
    obtain ⟨ht, -⟩ := containerUnexpectedPass_mem expected actual f hf
    have : f.type = "image_drift" :=
      of_decide_eq_true (Bool.and_eq_true .. ▸ hPf).1
    simp [ht] at this
  rw [hcup, List.append_nil]
  unfold containerEntryFindings
  rw [hlook]
  exact containerChecks_filter_image name cfg acfg

/-- C8 witness: expected repository nginx against actual repository
httpd emits the image_drift finding. -/
theorem analyze_container_drift_image_drift_iff_witness :
    ((analyze_container_drift [("web", ({ image := some "nginx:latest" } : ContainerDesc))]
        [("web", { name := some "web", image := some "httpd:latest" })]).2).filter
      (fun f => decide (f.type = "image_drift") && decide (f.resource = "web")) =
      (if splitHead ':' ((some "nginx:latest").getD "") ≠ "" ∧
          splitHead ':' ((some "httpd:latest").getD "") ≠ "" ∧
          pyInStr (splitHead ':' ((some "nginx:latest").getD ""))
            (splitHead ':' ((some "httpd:latest").getD "")) = false
        then [imageDriftFinding "web" { image := some "nginx:latest" }
          { name := some "web", image := some "httpd:latest" }] else []) ∧
    (imageDriftFinding "web" ({ image := some "nginx:latest" } : ContainerDesc)
      ({ name := some "web", image := some "httpd:latest" } : ContainerDesc)).severity =
      "medium" :=
  analyze_container_drift_image_drift_iff
    [("web", { image := some "nginx:latest" })]
    [("web", { name := some "web", image := some "httpd:latest" })] "web"
    { image := some "nginx:latest" } { name := some "web", image := some "httpd:latest" }
    (by simp) (by simp) rfl

/-- C3: the report summary always tallies the detail list: total_issues
is its length and each severity counter counts the entries with that
severity. -/
theorem generate_drift_report_summary_counts (dd : Bool) (details : List Finding)
    (ts : Option TerraformState) (ds : Option DockerState) (env now : String) :
    (generate_drift_report dd details ts ds env now).summary.total_issues =
      (generate_drift_report dd details ts ds env now).drift_details.length ∧
    (generate_drift_report dd details ts ds env now).summary.high_severity =
      (generate_drift_report dd details ts ds env now).drift_details.countP
        (fun d => d.severity = "high") ∧
    (generate_drift_report dd details ts ds env now).summary.medium_severity =
      (generate_drift_report dd details ts ds env now).drift_details.countP
        (fun d => d.severity = "medium") ∧
    (generate_drift_report dd details ts ds env now).summary.low_severity =
      (generate_drift_report dd details ts ds env now).drift_details.countP
        (fun d => d.severity = "low") := by
  refine ⟨rfl, ?_, ?_, ?_⟩ <;>
    simp [generate_drift_report, List.countP_eq_length_filter]

/-- C10: a falsy terraform or docker state makes analyze_drift return
no drift and no findings, whatever the other argument holds. -/
theorem analyze_drift_absent_input (ts : Option TerraformState) (ds : Option DockerState)
    (h : ts = none ∨ ds = none) : analyze_drift ts ds = (false, []) := by
  rcases h with h | h
  · subst h
    cases ds <;> rfl
  · subst h
    cases ts <;> rfl

/-- C10 witness: the expected snapshot is absent while the actual one
holds a container, a network and a volume; still no findings, in
particular no unexpected_container, unexpected_network or
unexpected_volume. -/
theorem analyze_drift_absent_input_witness :
    analyze_drift none
      (some { actual_infrastructure :=
        { containers := [("web", { name := some "web", running := some true })]
          networks := [("net1", { name := some "net1", driver := some "bridge" })]
          volumes := [("v1", { name := some "v1", driver := some "local" })] } }) =
      (false, []) :=
  analyze_drift_absent_input _ _ (Or.inl rfl)

/-- The descriptor of the C1 counterexample: a dictionary with a
declared restart policy, used as both the expected and the actual
entry of the container "web". -/
def c1desc : ContainerDesc :=
  { name := some "web", image := some "nginx:latest", ports := some [], env := some []
    networks := some [], restart := some "always", status := some "created" }

def c1infra : Infrastructure := { containers := [("web", c1desc)] }

/-- C1 as stated is false: with the container, network and volume
partitions of the two snapshots equal entry for entry, the analyzer
still reports drift, because the restart check reads the key "restart"
on the expected side but restart_policy.Name on the actual side. -/
theorem analyze_drift_equal_partitions_counterexample :
    ({ expected_infrastructure := c1infra } : TerraformState).expected_infrastructure.containers =
      ({ actual_infrastructure := c1infra } : DockerState).actual_infrastructure.containers ∧
    ({ expected_infrastructure := c1infra } : TerraformState).expected_infrastructure.networks =
      ({ actual_infrastructure := c1infra } : DockerState).actual_infrastructure.networks ∧
    ({ expected_infrastructure := c1infra } : TerraformState).expected_infrastructure.volumes =
      ({ actual_infrastructure := c1infra } : DockerState).actual_infrastructure.volumes ∧
    analyze_drift (some { expected_infrastructure := c1infra })
        (some { actual_infrastructure := c1infra }) =
      (true, [restartPolicyDriftFinding "web" c1desc c1desc]) :=
  ⟨rfl, rfl, rfl, rfl⟩

/-- A container dictionary is self-consistent when the keys the analyzer
reads on the actual side agree with the declared ones: a declared status
of running comes with running = true, a declared restart policy is
mirrored in restart_policy.Name, and a running container reports health
healthy or none. -/
def selfConsistent (cfg : ContainerDesc) : Prop :=
  (cfg.status = some "running" → cfg.running.getD false = true) ∧
  (cfg.restart.getD "" ≠ "" → (cfg.restart_policy.getD {}).Name.getD "" = cfg.restart.getD "") ∧
  (cfg.running.getD false = true →
    cfg.health_status.getD "none" = "healthy" ∨ cfg.health_status.getD "none" = "none")

instance (cfg : ContainerDesc) : Decidable (selfConsistent cfg) := by
  unfold selfConsistent
  infer_instance

theorem pyInStr_self (s : String) : pyInStr s s = true := by
  simp [pyInStr, List.infix_refl]

theorem containerChecks_self (n : String) (cfg : ContainerDesc)
    (h : selfConsistent cfg) : containerChecks n cfg cfg = [] := by
  obtain ⟨h1, h2, h3⟩ := h
  have e1 : ¬(cfg.status = some "running" ∧ cfg.running.getD false = false) := by
    rintro ⟨a, b⟩
    rw [h1 a] at b
    cases b
  have e2 : ¬(splitHead ':' (cfg.image.getD "") ≠ "" ∧ splitHead ':' (cfg.image.getD "") ≠ "" ∧
      pyInStr (splitHead ':' (cfg.image.getD "")) (splitHead ':' (cfg.image.getD "")) = false) := by
    rintro ⟨-, -, c⟩
    rw [pyInStr_self] at c
    cases c
  have e3 : ¬((cfg.ports.getD []).length ≠ (cfg.ports.getD []).length) := fun a => a rfl
  have e4 : ¬(cfg.restart.getD "" ≠ "" ∧
      cfg.restart.getD "" ≠ (cfg.restart_policy.getD {}).Name.getD "") := by
    rintro ⟨a, b⟩
    exact b (h2 a).symm
  have e5 : ¬((cfg.health_status.getD "none" ≠ "healthy" ∧
      cfg.health_status.getD "none" ≠ "none") ∧ cfg.running.getD false = true) := by
    rintro ⟨⟨a, b⟩, c⟩
    rcases h3 c with d | d
    · exact a d
    · exact b d
  simp only [containerChecks, if_neg e1, if_neg e2, if_neg e3, if_neg e4, if_neg e5,
    List.append_nil]

theorem containerExpectedPass_eq_nil (actual l : List (String × ContainerDesc))
    (h : ∀ p ∈ l, ∃ acfg, keyLookup p.1 actual = some acfg ∧
      containerChecks p.1 p.2 acfg = []) :
    containerExpectedPass actual l = [] := by
  induction l with
  | nil => rfl
  | cons hd tl ih =>
    obtain ⟨n, cfg⟩ := hd
    obtain ⟨acfg, hl, hc⟩ := h (n, cfg) (List.mem_cons_self ..)
    dsimp only at hl hc
    rw [containerExpectedPass_cons]
    unfold containerEntryFindings
    rw [hl]
    show containerChecks n cfg acfg ++ containerExpectedPass actual tl = []
    rw [hc, List.nil_append]
    exact ih (fun p hp => h p (List.mem_cons_of_mem _ hp))

theorem containerUnexpectedPass_self (l : List (String × ContainerDesc)) :
    containerUnexpectedPass l l = [] := by
  unfold containerUnexpectedPass
  rw [List.filter_eq_nil_iff.mpr, List.map_nil]
  intro p hp
  simp only [Option.isNone_iff_eq_none]
  intro hno
  have hs := keyLookup_isSome_of_mem l p hp
  rw [hno] at hs
  cases hs

theorem analyze_container_drift_self (l : List (String × ContainerDesc))
    (hnd : (l.map Prod.fst).Nodup) (hcoh : ∀ p ∈ l, selfConsistent p.2) :
    analyze_container_drift l l = (false, []) := by
  have h1 : containerExpectedPass l l = [] := by
    refine containerExpectedPass_eq_nil l l (fun p hp => ⟨p.2, ?_, ?_⟩)
    · exact keyLookup_of_mem_nodup l p.1 p.2 (by simpa using hp) hnd
    · exact containerChecks_self p.1 p.2 (hcoh p hp)
  simp [analyze_container_drift, h1, containerUnexpectedPass_self]

theorem networkChecks_self (n : String) (cfg : NetworkDesc) :
    networkChecks n cfg cfg = [] := by
  simp [networkChecks]

theorem networkExpectedPass_self (l : List (String × NetworkDesc))
    (hnd : (l.map Prod.fst).Nodup) : networkExpectedPass l l = [] := by
  have : ∀ m : List (String × NetworkDesc), (∀ p ∈ m, p ∈ l) →
      networkExpectedPass l m = [] := by
    intro m
    induction m with
    | nil => intro _; rfl
    | cons hd tl ih =>
      intro hsub
      obtain ⟨n, cfg⟩ := hd
      have hl : keyLookup n l = some cfg :=
        keyLookup_of_mem_nodup l n cfg (hsub (n, cfg) (List.mem_cons_self ..)) hnd
      show (match keyLookup n l with
        | none => [missingNetworkFinding n cfg]
        | some acfg => networkChecks n cfg acfg) ++ networkExpectedPass l tl = []
      rw [hl]
      show networkChecks n cfg cfg ++ networkExpectedPass l tl = []
      rw [networkChecks_self, List.nil_append]
      exact ih (fun p hp => hsub p (List.mem_cons_of_mem _ hp))
  exact this l (fun p hp => hp)

theorem networkUnexpectedPass_self (l : List (String × NetworkDesc)) :
    networkUnexpectedPass l l = [] := by
  unfold networkUnexpectedPass
  rw [List.filter_eq_nil_iff.mpr, List.map_nil]
  intro p hp
  simp only [Option.isNone_iff_eq_none]
  intro hno
  have hs := keyLookup_isSome_of_mem l p hp
  rw [hno] at hs
  cases hs

theorem analyze_network_drift_self (l : List (String × NetworkDesc))
    (hnd : (l.map Prod.fst).Nodup) : analyze_network_drift l l = (false, []) := by
  simp [analyze_network_drift, networkExpectedPass_self l hnd, networkUnexpectedPass_self]

theorem volumeChecks_self (n : String) (cfg : VolumeDesc) :
    volumeChecks n cfg cfg = [] := by
  simp [volumeChecks]

theorem volumeExpectedPass_self (l : List (String × VolumeDesc))
    (hnd : (l.map Prod.fst).Nodup) : volumeExpectedPass l l = [] := by
  have : ∀ m : List (String × VolumeDesc), (∀ p ∈ m, p ∈ l) →
      volumeExpectedPass l m = [] := by
    intro m
    induction m with
    | nil => intro _; rfl
    | cons hd tl ih =>
      intro hsub
      obtain ⟨n, cfg⟩ := hd
      have hl : keyLookup n l = some cfg :=
        keyLookup_of_mem_nodup l n cfg (hsub (n, cfg) (List.mem_cons_self ..)) hnd
      show (match keyLookup n l with
        | none => [missingVolumeFinding n cfg]
        | some acfg => volumeChecks n cfg acfg) ++ volumeExpectedPass l tl = []
      rw [hl]
      show volumeChecks n cfg cfg ++ volumeExpectedPass l tl = []
      rw [volumeChecks_self, List.nil_append]
      exact ih (fun p hp => hsub p (List.mem_cons_of_mem _ hp))
  exact this l (fun p hp => hp)

theorem volumeUnexpectedPass_self (l : List (String × VolumeDesc)) :
    volumeUnexpectedPass l l = [] := by
  unfold volumeUnexpectedPass
  rw [List.filter_eq_nil_iff.mpr, List.map_nil]
  intro p hp
  simp only [Option.isNone_iff_eq_none]
  intro hno
  have hs := keyLookup_isSome_of_mem l p hp
  rw [hno] at hs
  cases hs

theorem analyze_volume_drift_self (l : List (String × VolumeDesc))
    (hnd : (l.map Prod.fst).Nodup) : analyze_volume_drift l l = (false, []) := by
  simp [analyze_volume_drift, volumeExpectedPass_self l hnd, volumeUnexpectedPass_self]

/-- C1 (amended): for snapshots whose container, network and volume
partitions are deeply equal per descriptor, and in which every container
descriptor is self-consistent (see selfConsistent: its actual-side keys
agree with its declared ones), analyze_drift reports no drift and no
findings.  Without self-consistency the property fails, because the
container checks read differently named keys on the expected and actual
sides of the same dictionary. -/
theorem analyze_drift_equal_selfConsistent_no_drift
    (ts : TerraformState) (ds : DockerState)
    (hceq : ts.expected_infrastructure.containers = ds.actual_infrastructure.containers)
    (hneq : ts.expected_infrastructure.networks = ds.actual_infrastructure.networks)
    (hveq : ts.expected_infrastructure.volumes = ds.actual_infrastructure.volumes)
    (hndc : (ts.expected_infrastructure.containers.map Prod.fst).Nodup)
    (hndn : (ts.expected_infrastructure.networks.map Prod.fst).Nodup)
    (hndv : (ts.expected_infrastructure.volumes.map Prod.fst).Nodup)
    (hcoh : ∀ p ∈ ts.expected_infrastructure.containers, selfConsistent p.2) :
    analyze_drift (some ts) (some ds) = (false, []) := by
  show (let ei := ts.expected_infrastructure
    let ai := ds.actual_infrastructure
    let rc := analyze_container_drift ei.containers ai.containers
    let rn := analyze_network_drift ei.networks ai.networks
    let rv := analyze_volume_drift ei.volumes ai.volumes
    (rc.1 || rn.1 || rv.1, rc.2 ++ rn.2 ++ rv.2)) = (false, [])
  simp only [← hceq, ← hneq, ← hveq]
  rw [analyze_container_drift_self _ hndc hcoh, analyze_network_drift_self _ hndn,
    analyze_volume_drift_self _ hndv]
  rfl

/-- A fully populated, self-consistent container dictionary for the C1
witness. -/
def cohDesc : ContainerDesc :=
  { name := some "web", image := some "nginx:latest", ports := some [], env := some []
    networks := some [], restart := some "always", status := some "running"
    running := some true, restart_policy := some { Name := some "always" }
    health_status := some "healthy" }

/-- C1 witness: identical non-empty snapshots with a self-consistent
running container, a network and a volume produce no drift. -/
theorem analyze_drift_equal_selfConsistent_no_drift_witness :
    analyze_drift
      (some { expected_infrastructure :=
        { containers := [("web", cohDesc)]
          networks := [("net1", { name := some "net1", driver := some "bridge" })]
          volumes := [("v1", { name := some "v1", driver := some "local" })] } })
      (some { actual_infrastructure :=
        { containers := [("web", cohDesc)]
          networks := [("net1", { name := some "net1", driver := some "bridge" })]
          volumes := [("v1", { name := some "v1", driver := some "local" })] } }) =
      (false, []) :=
  analyze_drift_equal_selfConsistent_no_drift _ _ rfl rfl rfl
    (by simp) (by simp) (by simp)
    (by intro p hp; simp at hp; rw [hp]; decide)

/-- A terraform container resource whose values dictionary lacks the
name key. -/
def namelessResource : TfResource :=
  { type := some "docker_container", name := some "r1", values := some {} }

def namelessStateData : StateData :=
  { values := some { root_module := some { resources := some [namelessResource] } } }

/-- C9 as stated is false: a state with a container resource that lacks
its name key is skipped (the expected partition stays empty) and the
analysis completes, but no finding at all is recorded — in particular no
low-severity finding about the malformed entry. -/
theorem malformed_entry_no_finding_counterexample :
    (namelessResource.values.getD {}).name = none ∧
    extract_expected_infrastructure (some namelessStateData) = emptyInfrastructure ∧
    analyze_drift
      (some { expected_infrastructure :=
        extract_expected_infrastructure (some namelessStateData) })
      (some {}) = (false, []) :=
  ⟨rfl, rfl, rfl⟩

theorem tfStep_nameless (inf : Infrastructure) (r : TfResource)
    (h : pyTruthyOptStr (r.values.getD {}).name = false) : tfStep inf r = inf := by
  simp only [tfStep]
  split <;> simp [h]

/-- The parsed terraform state holding exactly the given resource
list. -/
def mkStateData (rs : List TfResource) : StateData :=
  { values := some { root_module := some { resources := some rs } } }

/-- C9 (amended): a resource descriptor whose values lack a truthy name
contributes nothing to the extracted expected infrastructure — the entry
is skipped and extraction proceeds over the remaining resources — and
consequently no finding (of any severity) records it. -/
theorem extract_expected_infrastructure_skips_nameless
    (pre post : List TfResource) (r : TfResource)
    (h : pyTruthyOptStr (r.values.getD {}).name = false) :
    extract_expected_infrastructure (some (mkStateData (pre ++ r :: post))) =
      extract_expected_infrastructure (some (mkStateData (pre ++ post))) := by
  show (pre ++ r :: post).foldl tfStep emptyInfrastructure =
    (pre ++ post).foldl tfStep emptyInfrastructure
  rw [List.foldl_append, List.foldl_append, List.foldl_cons,
    tfStep_nameless _ r h]

/-- A named terraform container resource for the C9 witness. -/
def namedContainerResource : TfResource :=
  { type := some "docker_container"
    values := some { name := some "web", image := some "nginx", must_run := some true } }

/-- A named terraform network resource for the C9 witness. -/
def namedNetworkResource : TfResource :=
  { type := some "docker_network"
    values := some { name := some "net1", driver := some "bridge" } }

/-- A terraform volume resource lacking its name, for the C9 witness. -/
def namelessVolumeResource : TfResource :=
  { type := some "docker_volume", name := some "v", values := some {} }

/-- C9 witness: a nameless volume resource between two named resources
changes nothing in the extraction. -/
theorem extract_expected_infrastructure_skips_nameless_witness :
    extract_expected_infrastructure
        (some (mkStateData ([namedContainerResource] ++ namelessVolumeResource :: [namedNetworkResource]))) =
      extract_expected_infrastructure
        (some (mkStateData ([namedContainerResource] ++ [namedNetworkResource]))) :=
  extract_expected_infrastructure_skips_nameless
    [namedContainerResource] [namedNetworkResource] namelessVolumeResource rfl

/-- C4: on a store whose window holds no reports the statistics call
does not return a zero-valued summary — it fails, because SUM over zero
rows is NULL and the drift_percentage expression divides the raw NULL
(None) value, unlike the neighbouring fields which are guarded with
`or 0`. -/
theorem get_drift_statistics_empty_store_raises :
    get_drift_statistics emptyDB none "2024-01-01T00:00:00" 7 "2024-01-08T00:00:00" =
      .error "TypeError: unsupported operand type(s) for /: NoneType and int" := rfl

theorem detailRows_report_id (start rid : Nat) (fs : List Finding) (x : DetailRow)
    (hx : x ∈ detailRows start rid fs) : x.report_id = rid := by
  induction fs generalizing start with
  | nil => cases hx
  | cons f rest ih =>
    rcases List.mem_cons.mp hx with h | h
    · subst h
      rfl
    · exact ih _ h

theorem infraRows_report_id (start rid : Nat) (st : InfraState) (ts : String) (x : InfraRow)
    (hx : x ∈ infraRows start rid st ts) : x.report_id = rid := by
  simp only [infraRows, List.mem_cons, List.not_mem_nil, or_false] at hx
  rcases hx with h | h | h | h | h | h | h | h <;> (subst h; rfl)

theorem store_report_preserves_childrenLinked (db : DB) (report : Report) (now : String)
    (h : childrenLinked db) : childrenLinked (store_report db report now).2 := by
  obtain ⟨hd, hi⟩ := h
  constructor
  · intro d hdmem
    rcases List.mem_append.mp hdmem with hold | hnew
    · obtain ⟨r, hr, hid⟩ := hd d hold
      exact ⟨r, List.mem_append_left _ hr, hid⟩
    · refine ⟨_, List.mem_append_right _ (List.mem_singleton_self _), ?_⟩
      exact (detailRows_report_id _ _ _ d hnew).symm
  · intro x hxmem
    rcases List.mem_append.mp hxmem with hold | hnew
    · obtain ⟨r, hr, hid⟩ := hi x hold
      exact ⟨r, List.mem_append_left _ hr, hid⟩
    · refine ⟨_, List.mem_append_right _ (List.mem_singleton_self _), ?_⟩
      exact (infraRows_report_id _ _ _ _ x hnew).symm

theorem cleanup_preserves_childrenLinked (db : DB) (cutoff : String)
    (h : childrenLinked db) : childrenLinked (cleanup_old_reports db cutoff).2 := by
  obtain ⟨hd, hi⟩ := h
  unfold cleanup_old_reports
  dsimp only
  split
  · exact ⟨hd, hi⟩
  · constructor
    · intro d hdmem
      obtain ⟨hdold, hkeep⟩ := List.mem_filter.mp hdmem
      obtain ⟨r, hr, hid⟩ := hd d hdold
      refine ⟨r, List.mem_filter.mpr ⟨hr, ?_⟩, hid⟩
      rwa [hid]
    · intro x hxmem
      obtain ⟨hxold, hkeep⟩ := List.mem_filter.mp hxmem
      obtain ⟨r, hr, hid⟩ := hi x hxold
      refine ⟨r, List.mem_filter.mpr ⟨hr, ?_⟩, hid⟩
      rwa [hid]

theorem childrenLinked_foldl (ops : List StoreOp) (db : DB) (h : childrenLinked db) :
    childrenLinked (ops.foldl applyOp db) := by
  induction ops generalizing db with
  | nil => exact h
  | cons op rest ih =>
    rw [List.foldl_cons]
    refine ih _ ?_
    cases op with
    | store report now => exact store_report_preserves_childrenLinked db report now h
    | cleanup cutoff => exact cleanup_preserves_childrenLinked db cutoff h

/-- C7: after any sequence of store_report and cleanup_old_reports
operations starting from the empty store, every drift_details row and
every infrastructure_state row references a report id present in
drift_reports: store_report attaches children only to its fresh report
and cleanup_old_reports removes the children of every report it
deletes. -/
theorem store_operations_no_orphans (ops : List StoreOp) :
    childrenLinked (ops.foldl applyOp emptyDB) := by
  refine childrenLinked_foldl ops emptyDB ⟨?_, ?_⟩ <;>
    · intro x hx
      cases hx

theorem natContains_iff (l : List Nat) (a : Nat) : l.contains a = true ↔ a ∈ l := by
  simp [List.contains_iff_exists_mem_beq]

theorem cleanup_old_reports_of_no_match (db : DB) (cutoff : String)
    (hE : db.reports.filter (fun r => txtLt r.timestamp cutoff) = []) :
    cleanup_old_reports db cutoff = (0, db) := by
  unfold cleanup_old_reports
  dsimp only
  rw [hE]
  rfl

theorem cleanup_old_reports_reports (db : DB) (cutoff : String)
    (h : (db.reports.map (fun r => r.id)).Nodup) :
    (cleanup_old_reports db cutoff).2.reports =
      db.reports.filter (fun r => !(txtLt r.timestamp cutoff)) := by
  by_cases hE : db.reports.filter (fun r => txtLt r.timestamp cutoff) = []
  · rw [cleanup_old_reports_of_no_match db cutoff hE]
    symm
    refine List.filter_eq_self.mpr (fun r hr => ?_)
    have := List.filter_eq_nil_iff.mp hE r hr
    simp only [Bool.not_eq_true] at this ⊢
    simp [this]
  · have hne : ¬(((db.reports.filter (fun r => txtLt r.timestamp cutoff)).map
        (fun r => r.id)).isEmpty = true) := by
      simpa [List.isEmpty_iff, List.map_eq_nil_iff] using hE
    unfold cleanup_old_reports
    dsimp only
    rw [if_neg hne]
    refine List.filter_congr (fun r hr => ?_)
    congr 1
    cases htx : txtLt r.timestamp cutoff
    · rw [Bool.eq_false_iff]
      intro hc
      obtain ⟨r2, hr2, hid⟩ := List.mem_map.mp ((natContains_iff _ _).mp hc)
      obtain ⟨hr2mem, hr2tx⟩ := List.mem_filter.mp hr2
      have : r2 = r := List.inj_on_of_nodup_map h hr2mem hr hid
      rw [this] at hr2tx
      rw [htx] at hr2tx
      cases hr2tx
    · refine (natContains_iff _ _).mpr ?_
      exact List.mem_map.mpr ⟨r, List.mem_filter.mpr ⟨hr, htx⟩, rfl⟩

theorem cleanup_old_reports_count (db : DB) (cutoff : String) :
    (cleanup_old_reports db cutoff).1 =
      (db.reports.filter (fun r => txtLt r.timestamp cutoff)).length := by
  by_cases hE : db.reports.filter (fun r => txtLt r.timestamp cutoff) = []
  · rw [cleanup_old_reports_of_no_match db cutoff hE, hE]
    rfl
  · have hne : ¬(((db.reports.filter (fun r => txtLt r.timestamp cutoff)).map
        (fun r => r.id)).isEmpty = true) := by
      simpa [List.isEmpty_iff, List.map_eq_nil_iff] using hE
    unfold cleanup_old_reports
    dsimp only
    rw [if_neg hne]
    exact List.length_map ..

/-- C5: with the store ids unique (as the AUTOINCREMENT key guarantees),
cleanup_old_reports keeps exactly the reports whose timestamp is not
strictly below the cutoff, returns the number of reports it deleted, is
a no-op returning 0 when nothing matches, and an immediately repeated
call deletes nothing, returns 0 and leaves the store unchanged. -/
theorem cleanup_old_reports_spec (db : DB) (cutoff : String)
    (h : (db.reports.map (fun r => r.id)).Nodup) :
    (cleanup_old_reports db cutoff).2.reports =
        db.reports.filter (fun r => !(txtLt r.timestamp cutoff)) ∧
    (cleanup_old_reports db cutoff).1 =
        (db.reports.filter (fun r => txtLt r.timestamp cutoff)).length ∧
    (db.reports.filter (fun r => txtLt r.timestamp cutoff) = [] →
      cleanup_old_reports db cutoff = (0, db)) ∧
    cleanup_old_reports (cleanup_old_reports db cutoff).2 cutoff =
        (0, (cleanup_old_reports db cutoff).2) := by
  refine ⟨cleanup_old_reports_reports db cutoff h, cleanup_old_reports_count db cutoff,
    cleanup_old_reports_of_no_match db cutoff, ?_⟩
  refine cleanup_old_reports_of_no_match _ cutoff ?_
  rw [cleanup_old_reports_reports db cutoff h, List.filter_filter]
  refine List.filter_eq_nil_iff.mpr (fun r hr => ?_)
  simp

/-- The C5 and C6 witness rows: minimal stored reports. -/
def mkRow (i : Nat) (ts env : String) : ReportRow :=
  { id := i, timestamp := ts, environment := env, drift_detected := false
    total_issues := 0, high_severity := 0, medium_severity := 0, low_severity := 0
    report_data := generate_drift_report false [] none none env ts, created_at := ts }

/-- A store with one old and one recent report. -/
def c5db : DB :=
  { emptyDB with
    reports := [mkRow 1 "2024-01-01T00:00:00" "dev", mkRow 2 "2024-01-10T00:00:00" "dev"]
    next_report_id := 3 }

/-- C5 witness: on the two-report store with cutoff between the two
timestamps, the old report is deleted, the count is 1, and the repeated
call is the identity returning 0. -/
theorem cleanup_old_reports_spec_witness :
    (cleanup_old_reports c5db "2024-01-05T00:00:00").2.reports =
        c5db.reports.filter (fun r => !(txtLt r.timestamp "2024-01-05T00:00:00")) ∧
    (cleanup_old_reports c5db "2024-01-05T00:00:00").1 =
        (c5db.reports.filter (fun r => txtLt r.timestamp "2024-01-05T00:00:00")).length ∧
    (c5db.reports.filter (fun r => txtLt r.timestamp "2024-01-05T00:00:00") = [] →
      cleanup_old_reports c5db "2024-01-05T00:00:00" = (0, c5db)) ∧
    cleanup_old_reports (cleanup_old_reports c5db "2024-01-05T00:00:00").2
        "2024-01-05T00:00:00" =
      (0, (cleanup_old_reports c5db "2024-01-05T00:00:00").2) :=
  cleanup_old_reports_spec c5db "2024-01-05T00:00:00" (by decide)

theorem txtLtL_irrefl (l : List Char) : txtLtL l l = false := by
  induction l with
  | nil => rfl
  | cons a as ih => simp [txtLtL, lt_irrefl, ih]

theorem txtLtL_asymm (x y : List Char) (h : txtLtL x y = true) : txtLtL y x = false := by
  induction x generalizing y with
  | nil =>
    cases y with
    | nil => cases h
    | cons b bs => rfl
  | cons a as ih =>
    cases y with
    | nil => cases h
    | cons b bs =>
      by_cases hab : a < b
      · have hba : ¬(b < a) := fun hba => lt_irrefl a (lt_trans hab hba)
        simp [txtLtL, hab, hba]
      · by_cases hba : b < a
        · simp [txtLtL, hab, hba] at h
        · simp only [txtLtL, if_neg hab, if_neg hba] at h
          simp [txtLtL, hab, hba, ih bs h]

theorem txtLtL_eq_of_not_lt (x y : List Char) (h1 : txtLtL x y = false)
    (h2 : txtLtL y x = false) : x = y := by
  induction x generalizing y with
  | nil =>
    cases y with
    | nil => rfl
    | cons b bs => cases h1
  | cons a as ih =>
    cases y with
    | nil => cases h2
    | cons b bs =>
      by_cases hab : a < b
      · simp [txtLtL, hab] at h1
      · by_cases hba : b < a
        · simp [txtLtL, hba] at h2
        · simp only [txtLtL, if_neg hab, if_neg hba] at h1 h2
          rw [le_antisymm (not_lt.mp hba) (not_lt.mp hab), ih bs h1 h2]

theorem txtLtL_trans (x y z : List Char) (h1 : txtLtL x y = true)
    (h2 : txtLtL y z = true) : txtLtL x z = true := by
  induction x generalizing y z with
  | nil =>
    cases y with
    | nil => cases h1
    | cons b bs =>
      cases z with
      | nil => cases h2
      | cons c cs => rfl
  | cons a as ih =>
    cases y with
    | nil => cases h1
    | cons b bs =>
      cases z with
      | nil => cases h2
      | cons c cs =>
        by_cases hab : a < b
        · by_cases hbc : b < c
          · simp [txtLtL, lt_trans hab hbc]
          · by_cases hcb : c < b
            · simp [txtLtL, hbc, hcb] at h2
            · have hbc2 : b = c := le_antisymm (not_lt.mp hcb) (not_lt.mp hbc)
              subst hbc2
              simp [txtLtL, hab]
        · by_cases hba : b < a
          · simp [txtLtL, hab, hba] at h1
          · have hab2 : a = b := le_antisymm (not_lt.mp hba) (not_lt.mp hab)
            subst hab2
            simp only [txtLtL, if_neg (lt_irrefl a)] at h1
            by_cases hac : a < c
            · simp [txtLtL, hac]
            · by_cases hca : c < a
              · simp [txtLtL, hac, hca] at h2
              · simp only [txtLtL, if_neg hac, if_neg hca] at h2 ⊢
                exact ih bs cs h1 h2

theorem txtLt_irrefl (a : String) : txtLt a a = false := txtLtL_irrefl a.toList

theorem txtLt_asymm (a b : String) (h : txtLt a b = true) : txtLt b a = false :=
  txtLtL_asymm a.toList b.toList h

theorem txtLt_eq_of_not_lt (a b : String) (h1 : txtLt a b = false)
    (h2 : txtLt b a = false) : a = b := by
  have := txtLtL_eq_of_not_lt a.toList b.toList h1 h2
  cases a
  cases b
  simpa [String.toList] using congrArg String.mk this

theorem txtLt_trans (a b c : String) (h1 : txtLt a b = true) (h2 : txtLt b c = true) :
    txtLt a c = true := txtLtL_trans a.toList b.toList c.toList h1 h2

theorem pickLatestIndexScan_none_iff (rows : List ReportRow) :
    pickLatestIndexScan rows = none ↔ rows = [] := by
  cases rows with
  | nil => simp [pickLatestIndexScan]
  | cons r rest =>
    simp only [pickLatestIndexScan]
    cases pickLatestIndexScan rest <;> simp
    split <;> simp

theorem pickLatestSorted_none_iff (rows : List ReportRow) :
    pickLatestSorted rows = none ↔ rows = [] := by
  cases rows with
  | nil => simp [pickLatestSorted]
  | cons r rest =>
    simp only [pickLatestSorted]
    cases pickLatestSorted rest <;> simp
    split <;> simp

theorem pickLatestIndexScan_spec (rows : List ReportRow) (b : ReportRow)
    (h : pickLatestIndexScan rows = some b) :
    b ∈ rows ∧ (∀ r ∈ rows, txtLt b.timestamp r.timestamp = false) ∧
      (∀ r ∈ rows, r.timestamp = b.timestamp → r.id ≤ b.id) := by
  induction rows generalizing b with
  | nil => cases h
  | cons r rest ih =>
    rw [pickLatestIndexScan] at h
    cases hrec : pickLatestIndexScan rest with
    | none =>
      rw [hrec] at h
      have hrb : r = b := by simpa using h
      subst hrb
      have hnil : rest = [] := (pickLatestIndexScan_none_iff rest).mp hrec
      subst hnil
      refine ⟨List.mem_singleton_self _, ?_, ?_⟩
      · intro x hx
        have hxr : x = r := by simpa using hx
        subst hxr
        exact txtLt_irrefl _
      · intro x hx hts
        have hxr : x = r := by simpa using hx
        subst hxr
        exact le_refl _
    | some c =>
      rw [hrec] at h
      dsimp only at h
      obtain ⟨hc, hmax, htie⟩ := ih c hrec
      by_cases hcond : txtLt r.timestamp c.timestamp = true ∨
          (r.timestamp = c.timestamp ∧ r.id < c.id)
      · rw [if_pos hcond] at h
        have hcb : c = b := by simpa using h
        subst hcb
        refine ⟨List.mem_cons_of_mem _ hc, ?_, ?_⟩
        · intro x hx
          rcases List.mem_cons.mp hx with hxr | hx
          · subst hxr
            rcases hcond with hlt | ⟨hts, -⟩
            · exact txtLt_asymm _ _ hlt
            · rw [hts]
              exact txtLt_irrefl _
          · exact hmax x hx
        · intro x hx hts
          rcases List.mem_cons.mp hx with hxr | hx
          · subst hxr
            rcases hcond with hlt | ⟨-, hid⟩
            · rw [hts] at hlt
              rw [txtLt_irrefl] at hlt
              cases hlt
            · exact le_of_lt hid
          · exact htie x hx hts
      · rw [if_neg hcond] at h
        have hrb : r = b := by simpa using h
        subst hrb
        push_neg at hcond
        obtain ⟨hn1p, hn2⟩ := hcond
        have hn1 : txtLt r.timestamp c.timestamp = false := by simpa using hn1p
        refine ⟨List.mem_cons_self .., ?_, ?_⟩
        · intro x hx
          rcases List.mem_cons.mp hx with hxr | hx
          · subst hxr
            exact txtLt_irrefl _
          · by_cases hcr : txtLt c.timestamp r.timestamp = true
            · rw [Bool.eq_false_iff]
              intro hbx
              have := txtLt_trans _ _ _ hcr hbx
              rw [hmax x hx] at this
              cases this
            · rw [txtLt_eq_of_not_lt _ _ hn1 (Bool.not_eq_true _ ▸ hcr)]
              exact hmax x hx
        · intro x hx hts
          rcases List.mem_cons.mp hx with hxr | hx
          · subst hxr
            exact le_refl _
          · by_cases hcr : txtLt c.timestamp r.timestamp = true
            · exfalso
              have hmx := hmax x hx
              rw [hts] at hmx
              rw [hmx] at hcr
              cases hcr
            · have hbc : r.timestamp = c.timestamp :=
                txtLt_eq_of_not_lt _ _ hn1 (Bool.not_eq_true _ ▸ hcr)
              have hxc : x.id ≤ c.id := htie x hx (hts.trans hbc)
              exact le_trans hxc (hn2 hbc)

theorem pickLatestSorted_spec (rows : List ReportRow) (b : ReportRow)
    (h : pickLatestSorted rows = some b) :
    b ∈ rows ∧ ∀ r ∈ rows, txtLt b.timestamp r.timestamp = false := by
  induction rows generalizing b with
  | nil => cases h
  | cons r rest ih =>
    rw [pickLatestSorted] at h
    cases hrec : pickLatestSorted rest with
    | none =>
      rw [hrec] at h
      have hrb : r = b := by simpa using h
      subst hrb
      have hnil : rest = [] := (pickLatestSorted_none_iff rest).mp hrec
      subst hnil
      refine ⟨List.mem_singleton_self _, ?_⟩
      intro x hx
      have hxr : x = r := by simpa using hx
      subst hxr
      exact txtLt_irrefl _
    | some c =>
      rw [hrec] at h
      dsimp only at h
      obtain ⟨hc, hmax⟩ := ih c hrec
      by_cases hcond : txtLt r.timestamp c.timestamp = true
      · rw [if_pos hcond] at h
        have hcb : c = b := by simpa using h
        subst hcb
        refine ⟨List.mem_cons_of_mem _ hc, ?_⟩
        intro x hx
        rcases List.mem_cons.mp hx with hxr | hx
        · subst hxr
          exact txtLt_asymm _ _ hcond
        · exact hmax x hx
      · rw [if_neg hcond] at h
        have hrb : r = b := by simpa using h
        subst hrb
        rw [Bool.not_eq_true] at hcond
        refine ⟨List.mem_cons_self .., ?_⟩
        intro x hx
        rcases List.mem_cons.mp hx with hxr | hx
        · subst hxr
          exact txtLt_irrefl _
        · by_cases hcr : txtLt c.timestamp r.timestamp = true
          · rw [Bool.eq_false_iff]
            intro hbx
            have := txtLt_trans _ _ _ hcr hbx
            rw [hmax x hx] at this
            cases this
          · rw [txtLt_eq_of_not_lt _ _ hcond (Bool.not_eq_true _ ▸ hcr)]
            exact hmax x hx

/-- C6 (amended): get_latest_report returns None exactly when no stored
report matches the environment filter, and otherwise returns the id and
body of a matching report whose timestamp no other matching report
strictly exceeds.  The tie-break among equal timestamps is guaranteed to
be the highest id only in the unfiltered query, which SQLite answers by
a reverse scan of the timestamp index; the environment-filtered query is
answered through the environment index plus a sort, and does not break
ties by highest id. -/
theorem get_latest_report_spec (db : DB) (environment : Option String) :
    (get_latest_report db environment = none ↔
      db.reports.filter (matchesEnv environment) = []) ∧
    (∀ i rep, get_latest_report db environment = some (i, rep) →
      ∃ row, row ∈ db.reports.filter (matchesEnv environment) ∧ row.id = i ∧
        row.report_data = rep ∧
        (∀ r2 ∈ db.reports.filter (matchesEnv environment),
          txtLt row.timestamp r2.timestamp = false) ∧
        (envTruthy environment = false →
          ∀ r2 ∈ db.reports.filter (matchesEnv environment),
            r2.timestamp = row.timestamp → r2.id ≤ row.id)) := by
  by_cases he : envTruthy environment = true
  · constructor
    · rw [show get_latest_report db environment =
          (pickLatestSorted (db.reports.filter (matchesEnv environment))).map
            (fun row => (row.id, row.report_data)) by
            unfold get_latest_report; dsimp only; rw [if_pos he]]
      rw [Option.map_eq_none']
      exact pickLatestSorted_none_iff _
    · intro i rep hsome
      rw [show get_latest_report db environment =
          (pickLatestSorted (db.reports.filter (matchesEnv environment))).map
            (fun row => (row.id, row.report_data)) by
            unfold get_latest_report; dsimp only; rw [if_pos he]] at hsome
      obtain ⟨row, hpick, heq⟩ := Option.map_eq_some'.mp hsome
      obtain ⟨hmem, hmax⟩ := pickLatestSorted_spec _ row hpick
      obtain ⟨h1, h2⟩ := Prod.mk.inj heq
      refine ⟨row, hmem, h1, h2, hmax, ?_⟩
      intro hfalse
      rw [he] at hfalse
      cases hfalse
  · have he2 : envTruthy environment = false := by simpa using he
    constructor
    · rw [show get_latest_report db environment =
          (pickLatestIndexScan (db.reports.filter (matchesEnv environment))).map
            (fun row => (row.id, row.report_data)) by
            unfold get_latest_report; dsimp only; rw [if_neg he]]
      rw [Option.map_eq_none']
      exact pickLatestIndexScan_none_iff _
    · intro i rep hsome
      rw [show get_latest_report db environment =
          (pickLatestIndexScan (db.reports.filter (matchesEnv environment))).map
            (fun row => (row.id, row.report_data)) by
            unfold get_latest_report; dsimp only; rw [if_neg he]] at hsome
      obtain ⟨row, hpick, heq⟩ := Option.map_eq_some'.mp hsome
      obtain ⟨hmem, hmax, htie⟩ := pickLatestIndexScan_spec _ row hpick
      obtain ⟨h1, h2⟩ := Prod.mk.inj heq
      exact ⟨row, hmem, h1, h2, hmax, fun _ => htie⟩

/-- Two reports sharing one timestamp in one environment. -/
def tieDB : DB :=
  { emptyDB with
    reports := [mkRow 1 "2024-01-01T00:00:00" "dev", mkRow 2 "2024-01-01T00:00:00" "dev"]
    next_report_id := 3 }

/-- C6 as stated is false in the environment-filtered case: with two
matching reports of equal timestamp and ids 1 and 2, the filtered query
returns the report with id 1, not the one with the highest id. -/
theorem get_latest_report_tie_counterexample :
    (get_latest_report tieDB (some "dev")).map (fun p => p.1) = some 1 ∧
    mkRow 2 "2024-01-01T00:00:00" "dev" ∈ tieDB.reports.filter (matchesEnv (some "dev")) ∧
    (mkRow 2 "2024-01-01T00:00:00" "dev").timestamp =
      (mkRow 1 "2024-01-01T00:00:00" "dev").timestamp ∧
    (mkRow 1 "2024-01-01T00:00:00" "dev").id < (mkRow 2 "2024-01-01T00:00:00" "dev").id :=
  ⟨rfl, by simp [tieDB, matchesEnv, envTruthy, mkRow], rfl, by decide⟩

/-- C6 witness: on the tied two-report store without an environment
filter, the spec yields the report with id 2, the maximal timestamp and
the highest id among the ties. -/
theorem get_latest_report_spec_witness :
    ∃ row, row ∈ tieDB.reports.filter (matchesEnv none) ∧ row.id = 2 ∧
      row.report_data = generate_drift_report false [] none none "dev" "2024-01-01T00:00:00" ∧
      (∀ r2 ∈ tieDB.reports.filter (matchesEnv none),
        txtLt row.timestamp r2.timestamp = false) ∧
      (envTruthy none = false →
        ∀ r2 ∈ tieDB.reports.filter (matchesEnv none),
          r2.timestamp = row.timestamp → r2.id ≤ row.id) :=
  (get_latest_report_spec tieDB none).2 2
    (generate_drift_report false [] none none "dev" "2024-01-01T00:00:00") rfl
